import Mathlib

/-!
Verification of the textmation scene-building compiler (`scenebuilder.py`)
and interpreter (`interpreter.py`) against their natural-language
specification.  The two build pipelines are embedded shallowly: elements
live in an arena (a list indexed by natural-number handles), the scope
stack is a list of handles with the innermost frame at the head, and the
builders are state-passing functions returning `Except`.

Modules imported by the two pipelines (`parser`, `datatypes`, `element`,
`templates`, `functions`, `elements`) are not part of the sources; the
pieces of them the pipelines use are modelled from the spec and marked
`Modelled from the spec:` in their doc comments.
-/

namespace Textmation

/-- Modelled from the spec: the fixed enumerated set of time units
(`datatypes.TimeUnit` is not in the sources).  Each unit carries its
textual suffix via `TimeUnit.value`. -/
inductive TimeUnit
  | seconds
  | milliseconds
  | minutes
  deriving DecidableEq, Repr

/-- Modelled from the spec: the textual suffix of each time unit. -/
def TimeUnit.value : TimeUnit → String
  | .seconds => "s"
  | .milliseconds => "ms"
  | .minutes => "m"

/-- Modelled from the spec: inverse of `TimeUnit.value`, i.e. membership
of a suffix in the fixed enumeration (`unit in (unit.value for unit in
TimeUnit)` in `_build_Number`). -/
def TimeUnit.fromString : String → Option TimeUnit
  | "s" => some .seconds
  | "ms" => some .milliseconds
  | "m" => some .minutes
  | _ => none

/-- The `Value` variants of the expression engine (`datatypes.py` and
`element.Percentage` are not in the sources; the closed set of variants
is taken from the spec).  `binOp`, `unaryOp` and `call` are deferred:
they store the operator or resolved function name together with compiled
operands, unevaluated.  `ref` is the compile-time (element, propertyName)
reference produced by name resolution. -/
inductive Value
  | number (x : Rat)
  | percentage (x : Rat)
  | time (x : Rat) (unit : TimeUnit)
  | string (s : String)
  | binOp (op : String) (lhs rhs : Value)
  | unaryOp (op : String) (operand : Value)
  | call (fname : String) (args : List Value)
  | ref (elem : Nat) (prop : String)

/-- The structured build/interpret error taxonomy of the spec.  Each
variant corresponds to one structured error message raised through
`_create_error` / `_fail` in the sources. -/
inductive SError
  | undefinedTemplate (name : String)
  | redeclaration (name : String)
  | propertyAlreadyDefined (name : String)
  | undefinedProperty (name : String)
  | unknownUnit (unit : String)
  | undefinedFunction (name : String)
  | unitMismatch
  | circularReference
  deriving DecidableEq, Repr

/-- Failure modes of `SceneBuilder`: a structured `SceneBuilderError`, a
raw Python exception escaping unclassified (`KeyError` from a bare dict
lookup, `NotImplementedError`, a failed `assert`, an `IndexError` from
indexing an empty scope stack). -/
inductive BuildErr
  | structured (e : SError)
  | keyError (key : String)
  | notImplemented
  | assertionFailure
  | indexError
  deriving DecidableEq, Repr

/-- The syntax-tree nodes produced by the external parser, as described
by the spec and consumed by the visitors of both pipelines.  `define` and
`assign` carry the property name directly (in the parser the first child
is a `Name` node; both pipelines read `node.name`). -/
inductive Node
  | create (element : String) (name : Option String) (children : List Node)
  | template (name : String) (inherit : Option String) (children : List Node)
  | define (name : String) (value : Node)
  | assign (name : String) (value : Node)
  | binOp (op : String) (lhs rhs : Node)
  | unaryOp (op : String) (operand : Node)
  | number (value : Rat) (unit : Option String)
  | strLit (s : String)
  | call (fname : String) (args : List Node)
  | nameRef (name : String)

/-- An element of the scene tree: a kind name, a Property Table (ordered
name/binding pairs, insertion order as in a Python dict) and the ordered
handles of its children in the arena. -/
structure Element where
  type_name : String
  props : List (String × Value)
  children : List Nat

/-- A freshly constructed `Element()`. -/
def Element.blank : Element := { type_name := "", props := [], children := [] }

/-- Ordered-dict lookup on an association list. -/
def lookup {α : Type} : List (String × α) → String → Option α
  | [], _ => Option.none
  | p :: l, k => if p.1 == k then some p.2 else lookup l k

/-- Ordered-dict assignment on an association list: replace the value in
place when the key exists (a Python dict keeps the original position)
and append otherwise. -/
def dictSet {α : Type} (l : List (String × α)) (k : String) (v : α) : List (String × α) :=
  if (lookup l k).isSome then l.map (fun p => if p.1 == k then (p.1, v) else p)
  else l ++ [(k, v)]

/-- Whether `name` is a key of the element's Property Table. -/
def Element.contains (e : Element) (name : String) : Bool :=
  (lookup e.props name).isSome

/-- Modelled from the spec: `element.py` is not in the sources;
`Element.get` returns a reference `(element, propertyName)` to the
property when the Property Table contains the name — regardless of the
bound value — and fails (Python `KeyError`, here `none`) otherwise. -/
def Element.get (h : Nat) (e : Element) (name : String) : Option Value :=
  if e.contains name then some (.ref h name) else none

/-- Modelled from the spec: `Element.set` replaces the binding of an
existing property and fails (`KeyError`, here `none`) when the name was
never declared on the element; it never creates a new entry. -/
def Element.set (e : Element) (name : String) (v : Value) : Option Element :=
  if e.contains name then
    some { e with props := e.props.map (fun p => if p.1 == name then (p.1, v) else p) }
  else
    none

/-- Modelled from the spec: `Element.define` adds a new entry to the
Property Table and fails (`ElementPropertyDefinedError`, here `none`)
when the name already exists on the element. -/
def Element.define (e : Element) (name : String) (v : Value) : Option Element :=
  if e.contains name then none
  else some { e with props := e.props ++ [(name, v)] }

/-- Modelled from the spec: a builder template (`templates.Template` is
not in the sources) — a named prototype carrying declared default
property bindings.  Built-in templates have no child structure. -/
structure Template where
  name : String
  props : List (String × Value)

/-- Modelled from the spec: `template.apply(element)` copies the
prototype structure onto the element — its kind name and its declared
default bindings. -/
def Template.apply (t : Template) (e : Element) : Element :=
  { e with type_name := t.name, props := e.props ++ t.props }

/-- Modelled from the spec: `Template.list_templates()`, the fixed
built-in template set of the scene builder. -/
def Template.list_templates : List Template :=
  [ { name := "Scene", props := [("width", .number 100), ("height", .number 100)] },
    { name := "Rectangle", props := [("width", .number 0), ("height", .number 0)] },
    { name := "Text", props := [("text", .string "")] } ]

/-- Modelled from the spec: the external function registry collaborator
(`functions.functions` is not in the sources) — lookup by name is all
the builder uses. -/
def functions : List String := ["time", "sin", "cos"]

/-- The mutable state of a `SceneBuilder` during `_build`: the session's
template registry, the element arena, and the scope stack of handles
(innermost frame first, so Python's `reversed(self._elements)` iteration
is plain head-to-tail order here). -/
structure BState where
  templates : List (String × Template)
  store : List Element
  stack : List Nat

/-- Result of building one syntax node: statements return `none`,
expressions a `Value`, `Create` the handle of the built element. -/
inductive BRes
  | none
  | val (v : Value)
  | elem (h : Nat)

/-- Replace the arena entry at handle `h`. -/
def storeSet (store : List Element) (h : Nat) (e : Element) : List Element :=
  store.set h e

/-- Read the arena entry at handle `h`. -/
def storeGet (store : List Element) (h : Nat) : Element :=
  store.getD h Element.blank

/-- The prelude of `_build_Create` before the children are built: resolve
the template (fail structured undefined-template), allocate a fresh
`Element`, fail `NotImplementedError` on a named instance, attach the new
element as the last child of the scope-stack top when one exists, apply
the template, and push the new element onto the scope stack. -/
def createPrelude (elemName : String) (instName : Option String) (s : BState) :
    Except BuildErr (Nat × BState) :=
  match lookup s.templates elemName with
  | Option.none => .error (.structured (.undefinedTemplate elemName))
  | some t =>
    let h := s.store.length
    let store0 := s.store ++ [Element.blank]
    match instName with
    | some _ => .error .notImplemented
    | Option.none =>
      let store1 :=
        match s.stack.head? with
        | some p => storeSet store0 p
            (let pe := storeGet store0 p
             { pe with children := pe.children ++ [h] })
        | Option.none => store0
      let store2 := storeSet store1 h (t.apply (storeGet store1 h))
      .ok (h, { s with store := store2, stack := h :: s.stack })

/-- The tail of `_build_Create` after the children are built: pop the
scope stack, asserting the popped frame is the element being built, and
return the element. -/
def createFinish (h : Nat) : Except BuildErr BState → Except BuildErr (BRes × BState)
  | .error e => .error e
  | .ok s =>
    match s.stack with
    | h2 :: rest =>
      if h2 = h then .ok (.elem h, { s with stack := rest })
      else .error .assertionFailure
    | [] => .error .assertionFailure

/-- Innermost-first scan of the scope stack in `_build_Name` (the
`for element in reversed(self._elements)` loop with `suppress(KeyError)`):
the first frame whose Property Table contains the name. -/
def findFrame (store : List Element) (stack : List Nat) (name : String) : Option Nat :=
  match stack with
  | [] => Option.none
  | h :: rest =>
    if (storeGet store h).contains name then some h else findFrame store rest name

mutual

/-- `SceneBuilder._build`: dispatch on the node kind, exactly the
`_build_*` visitors of `scenebuilder.py`. -/
def buildNode : Node → BState → Except BuildErr (BRes × BState)
  | .create elemName instName cs, s =>
    match createPrelude elemName instName s with
    | .error e => .error e
    | .ok (h, s2) => createFinish h (buildList cs s2)
  | .template _ _ _, _ => .error .notImplemented
  | .define name valNode, s =>
    (match buildNode valNode s with
     | .error e => .error e
     | .ok (.val v, s2) =>
       match s2.stack with
       | [] => .error .indexError
       | h :: _ =>
         match (storeGet s2.store h).define name v with
         | some e2 => .ok (.none, { s2 with store := storeSet s2.store h e2 })
         | Option.none => .error (.structured (.propertyAlreadyDefined name))
     | .ok (_, _) => .error .assertionFailure)
  | .assign name valNode, s =>
    (match buildNode valNode s with
     | .error e => .error e
     | .ok (.val v, s2) =>
       match s2.stack with
       | [] => .error .indexError
       | h :: _ =>
         match (storeGet s2.store h).set name v with
         | some e2 => .ok (.none, { s2 with store := storeSet s2.store h e2 })
         | Option.none => .error (.structured (.undefinedProperty name))
     | .ok (_, _) => .error .assertionFailure)
  | .binOp op lhs rhs, s =>
    (match buildNode lhs s with
     | .error e => .error e
     | .ok (.val lv, s1) =>
       match buildNode rhs s1 with
       | .error e => .error e
       | .ok (.val rv, s2) => .ok (.val (.binOp op lv rv), s2)
       | .ok (_, _) => .error .assertionFailure
     | .ok (_, _) => .error .assertionFailure)
  | .unaryOp op operand, s =>
    (match buildNode operand s with
     | .error e => .error e
     | .ok (.val v, s1) => .ok (.val (.unaryOp op v), s1)
     | .ok (_, _) => .error .assertionFailure)
  | .number v u, s =>
    (match u with
     | Option.none => .ok (.val (.number v), s)
     | some unit =>
       if unit = "%" then .ok (.val (.percentage v), s)
       else
         match TimeUnit.fromString unit with
         | some tu => .ok (.val (.time v tu), s)
         | Option.none => .error (.structured (.unknownUnit unit)))
  | .strLit str, s => .ok (.val (.string str), s)
  | .call fname args, s =>
    (match buildArgs args s with
     | .error e => .error e
     | .ok (vs, s1) =>
       if fname ∈ functions then .ok (.val (.call fname vs), s1)
       else .error (.keyError fname))
  | .nameRef name, s =>
    (match findFrame s.store s.stack name with
     | some h => .ok (.val (.ref h name), s)
     | Option.none => .error (.structured (.undefinedProperty name)))

/-- `SceneBuilder._build_children`: build each child in source order,
discarding the results (`for child in ...: pass`). -/
def buildList : List Node → BState → Except BuildErr BState
  | [], s => .ok s
  | n :: ns, s =>
    match buildNode n s with
    | .error e => .error e
    | .ok (_, s1) => buildList ns s1

/-- Argument compilation of `_build_Call`: build each argument in source
order, collecting the resulting `Value`s. -/
def buildArgs : List Node → BState → Except BuildErr (List Value × BState)
  | [], s => .ok ([], s)
  | n :: ns, s =>
    match buildNode n s with
    | .error e => .error e
    | .ok (.val v, s1) =>
      match buildArgs ns s1 with
      | .error e => .error e
      | .ok (vs, s2) => .ok (v :: vs, s2)
    | .ok (_, _) => .error .assertionFailure

end

/-- The fresh per-session state installed at the top of
`SceneBuilder.build`: the fixed built-in template set keyed by name, an
empty arena and an empty scope stack. -/
def initState : BState :=
  { templates := Template.list_templates.map (fun t => (t.name, t)),
    store := [],
    stack := [] }

/-- Whether a syntax node passes the entry assertions of `build` /
`interpret`: a `Create` of element kind `"Scene"`. -/
def Node.isSceneRoot : Node → Bool
  | .create e _ _ => e == "Scene"
  | _ => false

/-- `SceneBuilder.build`: the entry point.  `prior` models whatever
`self.templates` / `self._elements` were left on the builder object by
an earlier invocation; the method overwrites both with fresh instances
before building, so `prior` is unused (exactly as in the source).  The
entry asserts the root is a `Create` of `"Scene"`; the exit asserts the
result is an `Element` of kind `"Scene"`. -/
def SceneBuilder.build (_prior : BState) (node : Node) : Except BuildErr (Nat × BState) :=
  if node.isSceneRoot then
    match buildNode node initState with
    | .error e => .error e
    | .ok (.elem h, s) =>
      if (storeGet s.store h).type_name = "Scene" then .ok (h, s)
      else .error .assertionFailure
    | .ok (_, _) => .error .assertionFailure
  else .error .assertionFailure


namespace Interp

/-- Result of interpreting one node in `interpreter.py`: statements
return `None`, `Create`/`Template` bodies produce elements, `Name` and
`String` nodes return raw strings, and `Number` nodes are returned as
the raw syntax node itself (`return number`). -/
inductive IRes
  | none
  | elem (h : Nat)
  | str (s : String)
  | num (value : Rat) (unit : Option String)

/-- An element of the interpreter pipeline (`elements.Element` is not in
the sources): a name, a property mapping holding the raw interpreted
values, and ordered child handles in the arena. -/
structure IElement where
  name : String
  props : List (String × IRes)
  children : List Nat

/-- A freshly constructed `Element()` of the interpreter pipeline. -/
def IElement.blank : IElement := { name := "", props := [], children := [] }

/-- Failure modes of `Interpreter`: a structured `InterpreterError`, or a
raw Python exception escaping unclassified (`KeyError`,
`NotImplementedError`, `AttributeError` from a missing `_interpret_*`
visitor, a failed `assert`, an `IndexError` on an empty scope stack). -/
inductive IErr
  | structured (e : SError)
  | keyError (key : String)
  | notImplemented
  | attributeError
  | assertionFailure
  | indexError
  deriving DecidableEq, Repr

/-- The mutable state of an `Interpreter` during `_interpret`. -/
structure IState where
  templates : List (String × IElement)
  store : List IElement
  stack : List Nat

/-- Read the interpreter arena at handle `h`. -/
def istoreGet (store : List IElement) (h : Nat) : IElement :=
  store.getD h IElement.blank

/-- Modelled from the spec: `internal_templates`, the fixed built-in
template set collected from the element classes of the missing
`elements.py`, with the alias entry `Rect -> Rectangle` added
afterwards (the alias shares the `Rectangle` prototype). -/
def internal_templates : List (String × IElement) :=
  [ ("Scene", { name := "Scene", props := [], children := [] }),
    ("Rectangle", { name := "Rectangle", props := [], children := [] }),
    ("Text", { name := "Text", props := [], children := [] }),
    ("Rect", { name := "Rectangle", props := [], children := [] }) ]

/-- Deep structural copy of the subtree rooted at handle `h`, allocating
fresh arena entries; the fuel bounds the recursion depth (the arena is
acyclic, so a fuel of the arena size is never exhausted in a reachable
state). -/
def cloneSub (fuel : Nat) : List IElement → Nat → (List IElement × Nat) :=
  match fuel with
  | 0 => fun store _ => (store ++ [IElement.blank], store.length)
  | fuel + 1 => fun store h =>
    let src := istoreGet store h
    let r := src.children.foldl
      (fun acc c =>
        let r2 := cloneSub fuel acc.1 c
        (r2.1, acc.2 ++ [r2.2]))
      (store, ([] : List Nat))
    (r.1 ++ [{ src with children := r.2 }], r.1.length)

/-- Deep copy of a list of subtrees, left to right. -/
def cloneKids (fuel : Nat) (store : List IElement) (hs : List Nat) :
    (List IElement × List Nat) :=
  hs.foldl
    (fun acc c =>
      let r2 := cloneSub fuel acc.1 c
      (r2.1, acc.2 ++ [r2.2]))
    (store, ([] : List Nat))

/-- Modelled from the spec: `Interpreter._apply_template` — a class
template is instantiated first; the prototype's structure (name,
property declarations, deep-copied child structure) is then copied onto
the element stored at handle `h`. -/
def applyProto (proto : IElement) (h : Nat) (s : IState) : IState :=
  let (store1, kids) := cloneKids s.store.length s.store proto.children
  let e := istoreGet store1 h
  let e2 : IElement :=
    { name := proto.name, props := e.props ++ proto.props, children := e.children ++ kids }
  { s with store := store1.set h e2 }

/-- The inherit step of `_interpret_Template`: when `inheritsFrom` is
set, resolve the base template (structured undefined-template error if
absent) and apply it onto the prototype at handle `h`. -/
def resolveInherit (inh : Option String) (h : Nat) (s1 : IState) : Except IErr IState :=
  match inh with
  | Option.none => .ok s1
  | some base =>
    match lookup s1.templates base with
    | Option.none => .error (.structured (.undefinedTemplate base))
    | some bproto => .ok (applyProto bproto h s1)

/-- The prelude of `_interpret_Create` before the children run: resolve
the template (structured undefined-template error if absent), allocate a
fresh `Element` and apply the template to it, fail `NotImplementedError`
on a named instance, and push the element onto the scope stack. -/
def interpCreatePrelude (elemName : String) (instName : Option String) (s : IState) :
    Except IErr (Nat × IState) :=
  match lookup s.templates elemName with
  | Option.none => .error (.structured (.undefinedTemplate elemName))
  | some proto =>
    let h := s.store.length
    let s1 : IState := { s with store := s.store ++ [IElement.blank] }
    let s2 := applyProto proto h s1
    match instName with
    | some _ => .error .notImplemented
    | Option.none => .ok (h, { s2 with stack := h :: s2.stack })

mutual

/-- `Interpreter._interpret`: dispatch on the node kind, exactly the
`_interpret_*` visitors of `interpreter.py`.  There is no
`_interpret_Define` or `_interpret_Call` visitor, so those nodes fail
with an `AttributeError` from `getattr`. -/
def interpNode : Node → IState → Except IErr (IRes × IState)
  | .create elemName instName cs, s =>
    (match interpCreatePrelude elemName instName s with
     | .error e => .error e
     | .ok (h, s2) =>
       match interpAddChildren h cs s2 with
       | .error e => .error e
       | .ok s3 =>
         match s3.stack with
         | h2 :: rest =>
           if h2 = h then .ok (.elem h, { s3 with stack := rest })
           else .error .assertionFailure
         | [] => .error .assertionFailure)
  | .template name inh cs, s =>
    (let h := s.store.length
     let s1 : IState := { s with store := s.store ++ [{ IElement.blank with name := name }] }
     if (lookup s.templates name).isSome then
       .error (.structured (.redeclaration name))
     else
       match resolveInherit inh h s1 with
       | .error e => .error e
       | .ok s2 =>
         match interpAddChildren h cs ({ s2 with stack := h :: s2.stack }) with
         | .error e => .error e
         | .ok s3 =>
           match s3.stack with
           | h2 :: rest =>
             if h2 = h then
               let s4 : IState :=
                 { s3 with stack := rest, templates := dictSet s3.templates name (istoreGet s3.store h) }
               .ok (.none, s4)
             else .error .assertionFailure
           | [] => .error .assertionFailure)
  | .define _ _, _ => .error .attributeError
  | .assign name valNode, s =>
    (match interpNode valNode s with
     | .error e => .error e
     | .ok (v, s1) =>
       match s1.stack with
       | [] => .error .indexError
       | h :: _ =>
         let e := istoreGet s1.store h
         let e2 : IElement :=
           { e with props := e.props.map (fun p => if p.1 == name then (p.1, v) else p) }
         if (lookup e.props name).isSome then
           .ok (.none, { s1 with store := s1.store.set h e2 })
         else .error (.keyError name))
  | .binOp _ _ _, _ => .error .notImplemented
  | .unaryOp _ _, _ => .error .notImplemented
  | .number v u, s => .ok (.num v u, s)
  | .strLit t, s => .ok (.str t, s)
  | .call _ _, _ => .error .attributeError
  | .nameRef n, s => .ok (.str n, s)

/-- The child loop shared by `_interpret_Create` and
`_interpret_Template`: interpret each child in source order; a `None`
result is skipped, an `Element` result is appended to the children of
the element at handle `h`, anything else fails the `isinstance`
assertion. -/
def interpAddChildren (h : Nat) : List Node → IState → Except IErr IState
  | [], s => .ok s
  | n :: ns, s =>
    match interpNode n s with
    | .error e => .error e
    | .ok (.none, s1) => interpAddChildren h ns s1
    | .ok (.elem c, s1) =>
      let e := istoreGet s1.store h
      let e2 : IElement := { e with children := e.children ++ [c] }
      interpAddChildren h ns ({ s1 with store := s1.store.set h e2 })
    | .ok (_, _) => .error .assertionFailure

end

/-- The fresh per-session state installed at the top of
`Interpreter.interpret`: a fresh copy of the built-in template dict, an
empty arena and an empty scope stack. -/
def initIState : IState :=
  { templates := internal_templates, store := [], stack := [] }

/-- `Interpreter.interpret`: the entry point.  `prior` models whatever
state a previous invocation left on the interpreter object; it is
overwritten with fresh instances before interpreting (exactly as in the
source).  The entry asserts the root is a `Create` of `"Scene"`; the
exit asserts the resulting element is a `Scene` (the instantiated
elements here are plain `Element`s, so the check is `scene.name ==
"Scene"`). -/
def Interpreter.interpret (_prior : IState) (node : Node) : Except IErr (Nat × IState) :=
  if node.isSceneRoot then
    match interpNode node initIState with
    | .error e => .error e
    | .ok (.elem h, s) =>
      if (istoreGet s.store h).name = "Scene" then .ok (h, s)
      else .error .assertionFailure
    | .ok (_, _) => .error .assertionFailure
  else .error .assertionFailure

end Interp

end Textmation

namespace Textmation

/-! ### Helper lemmas about the association-list and arena primitives -/

theorem lookup_map_replace {α : Type} (nm : String) (v : α) :
    ∀ (l : List (String × α)), (lookup l nm).isSome = true →
      lookup (l.map (fun p => if p.1 == nm then (p.1, v) else p)) nm = some v := by
  intro l
  induction l with
  | nil => simp [lookup]
  | cons p l ih =>
    intro hsome
    by_cases hp : p.1 == nm
    · simp [lookup, hp]
    · simp only [Bool.not_eq_true] at hp
      simp only [lookup, hp, Bool.false_eq_true, if_false] at hsome
      simp only [List.map_cons, lookup, hp, Bool.false_eq_true, if_false]
      exact ih hsome

theorem lookup_append_of_none {α : Type} (nm : String) (m : List (String × α)) :
    ∀ (l : List (String × α)), lookup l nm = Option.none →
      lookup (l ++ m) nm = lookup m nm := by
  intro l
  induction l with
  | nil => simp [lookup]
  | cons p l ih =>
    intro hnone
    by_cases hp : p.1 == nm
    · simp [lookup, hp] at hnone
    · simp only [Bool.not_eq_true] at hp
      simp only [lookup, hp, Bool.false_eq_true, if_false] at hnone
      simpa [lookup, hp] using ih hnone

theorem lookup_dictSet {α : Type} (l : List (String × α)) (k : String) (v : α) :
    lookup (dictSet l k v) k = some v := by
  unfold dictSet
  by_cases hsome : (lookup l k).isSome
  · rw [if_pos hsome]
    exact lookup_map_replace k v l hsome
  · rw [if_neg hsome]
    rw [lookup_append_of_none k _ l (by simpa [Option.isSome_iff_ne_none] using hsome)]
    simp [lookup]

theorem map_replace_keys {α : Type} (nm : String) (v : α) (l : List (String × α)) :
    (l.map (fun p => if p.1 == nm then (p.1, v) else p)).map Prod.fst = l.map Prod.fst := by
  induction l with
  | nil => rfl
  | cons p l ih =>
    by_cases h : p.1 == nm
    · simp only [List.map_cons, if_pos h, ih]
    · simp only [List.map_cons, if_neg h, ih]

theorem storeGet_set_self (store : List Element) (i : Nat) (e : Element) (hi : i < store.length) :
    storeGet (storeSet store i e) i = e := by
  simp [storeGet, storeSet, List.getD, List.getElem?_set_self, hi]

theorem storeGet_set_ne (store : List Element) (i j : Nat) (e : Element) (hij : i ≠ j) :
    storeGet (storeSet store i e) j = storeGet store j := by
  simp [storeGet, storeSet, List.getD, List.getElem?_set_ne hij]

theorem storeGet_append_left (store l : List Element) (i : Nat) (hi : i < store.length) :
    storeGet (store ++ l) i = storeGet store i := by
  simp [storeGet, List.getD, List.getElem?_append_left hi]

theorem findFrame_first (store : List Element) (name : String) :
    ∀ (stack : List Nat) (i : Nat) (hi : i < stack.length),
      (storeGet store (stack.get ⟨i, hi⟩)).contains name = true →
      (∀ j (hj : j < stack.length), j < i →
        (storeGet store (stack.get ⟨j, hj⟩)).contains name = false) →
      findFrame store stack name = some (stack.get ⟨i, hi⟩)
  | h :: rest, 0, _, hp, _ => by
    have hp2 : (storeGet store h).contains name = true := hp
    simp [findFrame, hp2]
  | h :: rest, i + 1, hi, hp, hall => by
    have h0 : (storeGet store h).contains name = false := hall 0 (by omega) (by omega)
    simp only [findFrame, h0, Bool.false_eq_true, if_false]
    exact findFrame_first store name rest i (by simpa using Nat.lt_of_succ_lt_succ hi) hp
      (fun j hj hji => hall (j + 1) (by simpa using Nat.succ_lt_succ hj) (Nat.succ_lt_succ hji))

theorem findFrame_none (store : List Element) (name : String) :
    ∀ (stack : List Nat),
      (∀ h ∈ stack, (storeGet store h).contains name = false) →
      findFrame store stack name = Option.none
  | [], _ => rfl
  | h :: rest, hall => by
    have h0 : (storeGet store h).contains name = false := hall h (List.mem_cons_self h rest)
    simp only [findFrame, h0, Bool.false_eq_true, if_false]
    exact findFrame_none store name rest (fun g hg => hall g (List.mem_cons_of_mem h hg))

/-! ### The claims -/

/-- C2: for every `BinOp` (resp. `UnaryOp`) node, the build pass
recursively compiles the operand subexpressions and wraps the same
operator and the compiled operands as a deferred `BinOp` (resp.
`UnaryOp`) `Value` — the operator is never applied at build time. -/
theorem binop_unaryop_deferred (op : String) (lhs rhs : Node) (s : BState) :
    (∀ lv s1 rv s2,
       buildNode lhs s = .ok (.val lv, s1) →
       buildNode rhs s1 = .ok (.val rv, s2) →
       buildNode (.binOp op lhs rhs) s = .ok (.val (.binOp op lv rv), s2)) ∧
    (∀ lv s1,
       buildNode lhs s = .ok (.val lv, s1) →
       buildNode (.unaryOp op lhs) s = .ok (.val (.unaryOp op lv), s1)) := by
  constructor
  · intro lv s1 rv s2 hl hr
    simp [buildNode, hl, hr]
  · intro lv s1 hl
    simp [buildNode, hl]

/-- C2 witness: concrete deferred compilation of `1 + 2` and `-1`. -/
theorem binop_unaryop_deferred_witness :
    buildNode (.binOp "+" (.number 1 Option.none) (.number 2 Option.none)) initState
        = .ok (.val (.binOp "+" (.number 1) (.number 2)), initState) ∧
    buildNode (.unaryOp "-" (.number 1 Option.none)) initState
        = .ok (.val (.unaryOp "-" (.number 1)), initState) :=
  ⟨(binop_unaryop_deferred "+" (.number 1 Option.none) (.number 2 Option.none) initState).1
      (.number 1) initState (.number 2) initState rfl rfl,
   (binop_unaryop_deferred "-" (.number 1 Option.none) (.number 2 Option.none) initState).2
      (.number 1) initState rfl⟩

/-- C3: compilation of a `Number` node classifies it by its unit suffix —
no unit gives a `Number` with the same scalar, `%` gives a `Percentage`,
a suffix of the fixed `TimeUnit` enumeration gives a `Time` with that
unit, and any other suffix fails at compile time with a structured
unknown-unit error. -/
theorem number_unit_classification (v : Rat) (u : Option String) (s : BState) :
    (u = Option.none → buildNode (.number v u) s = .ok (.val (.number v), s)) ∧
    (u = some "%" → buildNode (.number v u) s = .ok (.val (.percentage v), s)) ∧
    (∀ unit tu, u = some unit → TimeUnit.fromString unit = some tu →
       buildNode (.number v u) s = .ok (.val (.time v tu), s)) ∧
    (∀ unit, u = some unit → unit ≠ "%" → TimeUnit.fromString unit = Option.none →
       buildNode (.number v u) s = .error (.structured (.unknownUnit unit))) := by
  refine ⟨fun h => by simp [buildNode, h], fun h => by simp [buildNode, h], ?_, ?_⟩
  · intro unit tu hu htu
    subst hu
    have hne : unit ≠ "%" := by
      intro h
      subst h
      simp [TimeUnit.fromString] at htu
    simp [buildNode, hne, htu]
  · intro unit hu hne htu
    subst hu
    simp [buildNode, hne, htu]

/-- C3 witness: the four classifications at concrete literals. -/
theorem number_unit_classification_witness :
    buildNode (.number 3 Option.none) initState = .ok (.val (.number 3), initState) ∧
    buildNode (.number 3 (some "%")) initState = .ok (.val (.percentage 3), initState) ∧
    buildNode (.number 3 (some "ms")) initState
        = .ok (.val (.time 3 .milliseconds), initState) ∧
    buildNode (.number 3 (some "px")) initState
        = .error (.structured (.unknownUnit "px")) :=
  ⟨(number_unit_classification 3 Option.none initState).1 rfl,
   (number_unit_classification 3 (some "%") initState).2.1 rfl,
   (number_unit_classification 3 (some "ms") initState).2.2.1 "ms" .milliseconds rfl rfl,
   (number_unit_classification 3 (some "px") initState).2.2.2 "px" rfl (by decide) rfl⟩

/-- C9: neither `build()` nor `interpret()` depends on the state a
previous invocation left on the builder/interpreter object — each run
overwrites the template registry with the fixed built-in set and the
scope stack with an empty one before building, so any two invocations on
the same syntax tree agree. -/
theorem build_sessions_isolated (p q : BState) (pi qi : Interp.IState) (n : Node) :
    SceneBuilder.build p n = SceneBuilder.build q n ∧
    Interp.Interpreter.interpret pi n = Interp.Interpreter.interpret qi n :=
  ⟨rfl, rfl⟩

/-- C1: `_build_Name` resolves an identifier by scanning the scope stack
from the innermost (top) frame outward and returns the property
reference from the first frame whose Property Table contains the name,
regardless of the bound value; when no frame contains the name it fails
with a structured undefined-property error.  Index 0 is the innermost
frame. -/
theorem name_resolution_innermost_first (s : BState) (n : String) :
    (∀ i (hi : i < s.stack.length),
       (storeGet s.store (s.stack.get ⟨i, hi⟩)).contains n = true →
       (∀ j (hj : j < i),
          (storeGet s.store (s.stack.get ⟨j, Nat.lt_trans hj hi⟩)).contains n = false) →
       buildNode (.nameRef n) s = .ok (.val (.ref (s.stack.get ⟨i, hi⟩) n), s)) ∧
    ((∀ h ∈ s.stack, (storeGet s.store h).contains n = false) →
       buildNode (.nameRef n) s = .error (.structured (.undefinedProperty n))) := by
  constructor
  · intro i hi hp hall
    have hf := findFrame_first s.store n s.stack i hi hp (fun j hj hji => hall j hji)
    simp [buildNode, hf]
  · intro hall
    simp [buildNode, findFrame_none s.store n s.stack hall]

/-- A two-frame scope stack for exercising name resolution: the
innermost frame (handle 0) declares only `x`; the outer frame (handle 1)
declares `width`. -/
def wState : BState :=
  { templates := initState.templates,
    store :=
      [ { type_name := "Rectangle", props := [("x", .number 1)], children := [] },
        { type_name := "Scene", props := [("width", .number 100)], children := [0] } ],
    stack := [0, 1] }

/-- C1 witness: `width` resolves to the outer frame after the innermost
misses; an undeclared name fails with the structured error. -/
theorem name_resolution_innermost_first_witness :
    buildNode (.nameRef "width") wState = .ok (.val (.ref 1 "width"), wState) ∧
    buildNode (.nameRef "nope") wState = .error (.structured (.undefinedProperty "nope")) :=
  ⟨(name_resolution_innermost_first wState "width").1 1 (by decide) (by decide)
      (fun j hj => by
        have hj0 : j = 0 := by omega
        subst hj0
        rfl),
   (name_resolution_innermost_first wState "nope").2 (by decide)⟩

/-- C4 counterexample: a `Call` whose function name is absent from the
registry fails with the raw `KeyError` of the bare dict lookup
`functions[call.name]`, not with any structured error — the claimed
structured `UndefinedFunction` failure does not happen. -/
theorem call_undefined_function_cex :
    buildNode (.call "nosuch" []) initState = .error (.keyError "nosuch") ∧
    ∀ e : SError, buildNode (.call "nosuch" []) initState ≠ .error (.structured e) := by
  have h1 : buildNode (.call "nosuch" []) initState = .error (.keyError "nosuch") := by
    simp [buildNode, buildArgs, functions]
  refine ⟨h1, fun e h => ?_⟩
  rw [h1] at h
  injection h with h2
  exact BuildErr.noConfusion h2

/-- C4 (amended): `_build_Call` compiles the arguments in source order
and, when the function name is in the registry, returns a deferred
`Call` value holding the resolved function and the compiled arguments;
when the name is absent, the build fails with the uncaught `KeyError`
from the registry lookup — an unstructured failure. -/
theorem call_resolution_deferred (fname : String) (args : List Node) (s : BState) :
    ∀ vs s1, buildArgs args s = .ok (vs, s1) →
      (fname ∈ functions → buildNode (.call fname args) s = .ok (.val (.call fname vs), s1)) ∧
      (fname ∉ functions → buildNode (.call fname args) s = .error (.keyError fname)) := by
  intro vs s1 hargs
  refine ⟨fun hmem => ?_, fun hmem => ?_⟩
  · simp [buildNode, hargs, hmem]
  · simp [buildNode, hargs, hmem]

/-- C4 witness: a known function defers; an unknown one raises the raw
`KeyError`. -/
theorem call_resolution_deferred_witness :
    buildNode (.call "sin" [.number 1 Option.none]) initState
        = .ok (.val (.call "sin" [.number 1]), initState) ∧
    buildNode (.call "nofn" [.number 1 Option.none]) initState
        = .error (.keyError "nofn") :=
  ⟨(call_resolution_deferred "sin" [.number 1 Option.none] initState
      [.number 1] initState rfl).1 (by decide),
   (call_resolution_deferred "nofn" [.number 1 Option.none] initState
      [.number 1] initState rfl).2 (by decide)⟩

/-- C8: a `Create` carrying an instance name fails in both pipelines —
the result is an error whatever the children are (they are never built),
so no element with the name dropped is ever returned. -/
theorem named_instance_fails_fast (elemName x : String) (cs cs2 : List Node)
    (s : BState) (si : Interp.IState) :
    (∃ err, buildNode (.create elemName (some x) cs) s = .error err) ∧
    buildNode (.create elemName (some x) cs) s
        = buildNode (.create elemName (some x) cs2) s ∧
    (∃ err, Interp.interpNode (.create elemName (some x) cs) si = .error err) ∧
    Interp.interpNode (.create elemName (some x) cs) si
        = Interp.interpNode (.create elemName (some x) cs2) si := by
  have hb : ∀ cs0, buildNode (.create elemName (some x) cs0) s
      = match lookup s.templates elemName with
        | Option.none => .error (.structured (.undefinedTemplate elemName))
        | some _ => .error .notImplemented := by
    intro cs0
    cases hlk : lookup s.templates elemName <;> simp [buildNode, createPrelude, hlk]
  have hin : ∀ cs0, Interp.interpNode (.create elemName (some x) cs0) si
      = match lookup si.templates elemName with
        | Option.none => .error (.structured (.undefinedTemplate elemName))
        | some _ => .error .notImplemented := by
    intro cs0
    cases hlk : lookup si.templates elemName <;>
      simp [Interp.interpNode, Interp.interpCreatePrelude, hlk]
  refine ⟨?_, by rw [hb, hb], ?_, by rw [hin, hin]⟩
  · rw [hb]
    cases lookup s.templates elemName <;> exact ⟨_, rfl⟩
  · rw [hin]
    cases lookup si.templates elemName <;> exact ⟨_, rfl⟩

/-- C5: when a parent is on the scope stack, `_build_Create` attaches the
fresh element as the parent's last child during the prelude — before any
of the new element's own children are built.  The second conjunct
factors the build of the `Create` node into the prelude followed by the
child builds from the already-attached state `s2`. -/
theorem create_attaches_child_before_children (elemName : String) (cs : List Node)
    (s : BState) (p : Nat) (hp : s.stack.head? = some p) (hplt : p < s.store.length)
    (h : Nat) (s2 : BState) (hpre : createPrelude elemName Option.none s = .ok (h, s2)) :
    (storeGet s2.store p).children = (storeGet s.store p).children ++ [h] ∧
    buildNode (.create elemName Option.none cs) s = createFinish h (buildList cs s2) := by
  constructor
  · cases hlk : lookup s.templates elemName with
    | none => simp [createPrelude, hlk] at hpre
    | some t =>
      simp only [createPrelude, hlk, hp] at hpre
      rw [Except.ok.injEq, Prod.mk.injEq] at hpre
      obtain ⟨hh, hs2⟩ := hpre
      subst hh
      subst hs2
      rw [storeGet_set_ne _ _ _ _ (by omega : s.store.length ≠ p)]
      rw [storeGet_set_self _ _ _ (by simpa using Nat.lt_succ_of_lt hplt)]
      rw [storeGet_append_left _ _ _ hplt]
  · simp [buildNode, hpre]

/-- A one-element scene on the scope stack, used to exercise `Create`,
`Assign` and `Define` against a live parent frame. -/
def parentState : BState :=
  { templates := initState.templates,
    store :=
      [ { type_name := "Scene",
          props := [("width", .number 100), ("height", .number 100)],
          children := [] } ],
    stack := [0] }

/-- The state after the `Create` prelude of a `Rectangle` under
`parentState`: the fresh element (handle 1) is already attached to the
parent and pushed, although none of its children have been built. -/
def parentStateMid : BState :=
  { templates := initState.templates,
    store :=
      [ { type_name := "Scene",
          props := [("width", .number 100), ("height", .number 100)],
          children := [1] },
        { type_name := "Rectangle",
          props := [("width", .number 0), ("height", .number 0)],
          children := [] } ],
    stack := [1, 0] }

/-- C5 witness: a concrete `Create Rectangle` under a parent scene. -/
theorem create_attaches_child_before_children_witness :
    (storeGet parentStateMid.store 0).children
        = (storeGet parentState.store 0).children ++ [1] ∧
    buildNode (.create "Rectangle" Option.none []) parentState
        = createFinish 1 (buildList [] parentStateMid) :=
  create_attaches_child_before_children "Rectangle" [] parentState 0 rfl (by decide)
    1 parentStateMid rfl

/-- C6: `_build_Assign` compiles the value expression and replaces the
binding of an existing property of the element at the top of the scope
stack, never adding a key; when the name was never declared there, it
fails with a structured undefined-property error. -/
theorem assign_requires_declared_property (name : String) (valNode : Node) (s : BState) :
    ∀ v s1, buildNode valNode s = .ok (.val v, s1) →
    ∀ hE rest, s1.stack = hE :: rest →
      ((storeGet s1.store hE).contains name = true →
         ∃ e2, (storeGet s1.store hE).set name v = some e2 ∧
           e2.props.map Prod.fst = (storeGet s1.store hE).props.map Prod.fst ∧
           lookup e2.props name = some v ∧
           buildNode (.assign name valNode) s
             = .ok (.none, { s1 with store := storeSet s1.store hE e2 })) ∧
      ((storeGet s1.store hE).contains name = false →
         buildNode (.assign name valNode) s
             = .error (.structured (.undefinedProperty name))) := by
  intro v s1 hv hE rest hstack
  constructor
  · intro hc
    refine ⟨{ storeGet s1.store hE with
        props := (storeGet s1.store hE).props.map
          (fun q => if q.1 == name then (q.1, v) else q) }, ?_, ?_, ?_, ?_⟩
    · simp [Element.set, hc]
    · exact map_replace_keys name v _
    · exact lookup_map_replace name v _ (by simpa [Element.contains] using hc)
    · simp [buildNode, hv, hstack, Element.set, hc]
  · intro hc
    simp [buildNode, hv, hstack, Element.set, hc]

/-- C6 witness: assigning the declared `width` of the parent scene
replaces its binding; assigning an undeclared name fails with the
structured error. -/
theorem assign_requires_declared_property_witness :
    (∃ e2, (storeGet parentState.store 0).set "width" (.number 5) = some e2 ∧
       e2.props.map Prod.fst = (storeGet parentState.store 0).props.map Prod.fst ∧
       lookup e2.props "width" = some (.number 5) ∧
       buildNode (.assign "width" (.number 5 Option.none)) parentState
           = .ok (.none, { parentState with store := storeSet parentState.store 0 e2 })) ∧
    buildNode (.assign "nope" (.number 5 Option.none)) parentState
        = .error (.structured (.undefinedProperty "nope")) :=
  ⟨(assign_requires_declared_property "width" (.number 5 Option.none) parentState
      (.number 5) parentState rfl 0 [] rfl).1 rfl,
   (assign_requires_declared_property "nope" (.number 5 Option.none) parentState
      (.number 5) parentState rfl 0 [] rfl).2 rfl⟩

/-- C7: `_interpret_Template` fails with a structured redeclaration
error when the template name is already registered and registers the
finished prototype under the name otherwise — whenever interpretation of
the declaration succeeds, the name was previously unregistered and is
registered afterwards. -/
theorem template_redeclaration_guard (name : String) (inh : Option String)
    (cs : List Node) (s : Interp.IState) :
    ((lookup s.templates name).isSome = true →
       Interp.interpNode (.template name inh cs) s
           = .error (.structured (.redeclaration name))) ∧
    (∀ r s2, Interp.interpNode (.template name inh cs) s = .ok (r, s2) →
       (lookup s.templates name).isSome = false ∧
       ∃ proto, lookup s2.templates name = some proto) := by
  constructor
  · intro hsome
    simp [Interp.interpNode, hsome]
  · intro r s2 hok
    by_cases hsome : (lookup s.templates name).isSome
    · simp [Interp.interpNode, hsome] at hok
    · have hsome2 : (lookup s.templates name).isSome = false := by simpa using hsome
      refine ⟨hsome2, ?_⟩
      unfold Interp.interpNode at hok
      rw [hsome2] at hok
      simp only [Bool.false_eq_true, if_false] at hok
      split at hok
      · exact absurd hok (by simp)
      · split at hok
        · exact absurd hok (by simp)
        · split at hok
          · split at hok
            · rw [Except.ok.injEq, Prod.mk.injEq] at hok
              obtain ⟨-, hs2⟩ := hok
              subst hs2
              exact ⟨_, lookup_dictSet _ _ _⟩
            · exact absurd hok (by simp)
          · exact absurd hok (by simp)

/-- The registry after interpreting `Template Title`: the built-in set
with the finished `Title` prototype appended. -/
def w7Final : Interp.IState :=
  { templates := Interp.internal_templates
      ++ [("Title", { name := "Title", props := [], children := [] })],
    store := [{ name := "Title", props := [], children := [] }],
    stack := [] }

/-- C7 witness: redeclaring the built-in `Scene` fails; declaring a
fresh `Title` template succeeds and registers it. -/
theorem template_redeclaration_guard_witness :
    Interp.interpNode (.template "Scene" Option.none []) Interp.initIState
        = .error (.structured (.redeclaration "Scene")) ∧
    ((lookup Interp.initIState.templates "Title").isSome = false ∧
     ∃ proto, lookup w7Final.templates "Title" = some proto) :=
  ⟨(template_redeclaration_guard "Scene" Option.none [] Interp.initIState).1 rfl,
   (template_redeclaration_guard "Title" Option.none [] Interp.initIState).2
      .none w7Final rfl⟩

/-- C10: `build()` and `interpret()` accept only a `Create` of element
kind Scene as the root — any other root fails the entry assertions — and
whenever they return normally, the returned element is of kind Scene. -/
theorem scene_root_contract (p : BState) (pi : Interp.IState) (n : Node) :
    (n.isSceneRoot = false →
       SceneBuilder.build p n = .error .assertionFailure ∧
       Interp.Interpreter.interpret pi n = .error .assertionFailure) ∧
    (∀ h s, SceneBuilder.build p n = .ok (h, s) →
       n.isSceneRoot = true ∧ (storeGet s.store h).type_name = "Scene") ∧
    (∀ h s, Interp.Interpreter.interpret pi n = .ok (h, s) →
       n.isSceneRoot = true ∧ (Interp.istoreGet s.store h).name = "Scene") := by
  refine ⟨fun hfalse => ?_, fun h s hok => ?_, fun h s hok => ?_⟩
  · exact ⟨by simp [SceneBuilder.build, hfalse],
           by simp [Interp.Interpreter.interpret, hfalse]⟩
  · by_cases hroot : n.isSceneRoot
    · unfold SceneBuilder.build at hok
      rw [hroot] at hok
      simp only [if_true] at hok
      split at hok
      · exact absurd hok (by simp)
      · rename_i h0 s0
        split at hok
        · rename_i hty
          rw [Except.ok.injEq, Prod.mk.injEq] at hok
          obtain ⟨hh, hs⟩ := hok
          subst hh
          subst hs
          exact ⟨hroot, hty⟩
        · exact absurd hok (by simp)
      · exact absurd hok (by simp)
    · simp only [Bool.not_eq_true] at hroot
      simp [SceneBuilder.build, hroot] at hok
  · by_cases hroot : n.isSceneRoot
    · unfold Interp.Interpreter.interpret at hok
      rw [hroot] at hok
      simp only [if_true] at hok
      split at hok
      · exact absurd hok (by simp)
      · rename_i h0 s0
        split at hok
        · rename_i hty
          rw [Except.ok.injEq, Prod.mk.injEq] at hok
          obtain ⟨hh, hs⟩ := hok
          subst hh
          subst hs
          exact ⟨hroot, hty⟩
        · exact absurd hok (by simp)
      · exact absurd hok (by simp)
    · simp only [Bool.not_eq_true] at hroot
      simp [Interp.Interpreter.interpret, hroot] at hok

/-- The builder state produced by building the root `Create Scene` with
no children. -/
def w10Final : BState :=
  { templates := initState.templates,
    store :=
      [ { type_name := "Scene",
          props := [("width", .number 100), ("height", .number 100)],
          children := [] } ],
    stack := [] }

/-- The interpreter state produced by interpreting the root
`Create Scene` with no children. -/
def w10IFinal : Interp.IState :=
  { templates := Interp.internal_templates,
    store := [{ name := "Scene", props := [], children := [] }],
    stack := [] }

/-- C10 witness: a non-Scene root fails the entry assertions of both
pipelines; the trivial Scene root builds to a Scene element in both. -/
theorem scene_root_contract_witness :
    (SceneBuilder.build initState (.nameRef "x") = .error .assertionFailure ∧
     Interp.Interpreter.interpret Interp.initIState (.nameRef "x")
         = .error .assertionFailure) ∧
    (Node.isSceneRoot (.create "Scene" Option.none []) = true ∧
     (storeGet w10Final.store 0).type_name = "Scene") ∧
    (Node.isSceneRoot (.create "Scene" Option.none []) = true ∧
     (Interp.istoreGet w10IFinal.store 0).name = "Scene") :=
  ⟨(scene_root_contract initState Interp.initIState (.nameRef "x")).1 rfl,
   (scene_root_contract initState Interp.initIState (.create "Scene" Option.none [])).2.1
      0 w10Final rfl,
   (scene_root_contract initState Interp.initIState (.create "Scene" Option.none [])).2.2
      0 w10IFinal rfl⟩

end Textmation
